import Mathlib

/-!
Verification of the GitHarbor query engine (backend/services/github_service.py
and backend/services/ai_service.py) against its specification.

The Python services are shallowly embedded as total Lean functions:

* upstream HTTP traffic is modelled by an environment value per endpoint
  (an HTTP response with status, raw text and parsed JSON body, a timeout,
  or a network error); upstream JSON payloads are modelled by structures
  holding exactly the fields the Python code reads, with nullable JSON
  fields as Option values (the GitHub payloads always carry these keys, so
  dict.get defaults for them never fire and missing-vs-null is collapsed
  into Option);
* every Python exception path that the code catches is folded into the
  value the handler returns, so the embedded functions are total exactly
  where the source never lets an exception escape;
* the module-level mutable dictionaries (the snapshot cache and the
  per-project vector-collection map) are threaded explicitly as
  association lists;
* Python string operations are re-implemented over the character list of
  the Lean string (lower/upper case, slicing, strip), so that every
  definition evaluates inside the kernel.
-/

/-! ## Python string primitives -/

/-- Python s.lower() (ASCII case folding, which covers every string the
service manipulates). -/
def pyLower (s : String) : String := ⟨s.data.map Char.toLower⟩

/-- Python s.upper(). -/
def pyUpper (s : String) : String := ⟨s.data.map Char.toUpper⟩

/-- Python s[:n] (slicing counts characters). -/
def pyTake (s : String) (n : Nat) : String := ⟨s.data.take n⟩

/-- Python whitespace, as stripped by str.strip(). -/
def isPySpace (c : Char) : Bool :=
  c = ' ' || c = '\t' || c = '\n' || c = '\x0d' || c = '\x0b' || c = '\x0c'

/-- Python s.strip(). -/
def pyStrip (s : String) : String :=
  ⟨((s.data.dropWhile isPySpace).reverse.dropWhile isPySpace).reverse⟩

/-- Python pat in s (substring containment). -/
def containsSub (s pat : String) : Bool := decide (pat.data <:+: s.data)

/-- Python truthiness of a nullable string: None and the empty string are
falsy. -/
def truthyStr : Option String → Bool
  | none => false
  | some s => !(s == "")

/-- Python str(x) applied to a nullable string: None prints as "None". -/
def pyOptStr : Option String → String
  | none => "None"
  | some s => s

/-- Python sep.join(l). -/
def joinSep (sep : String) : List String → String
  | [] => ""
  | [x] => x
  | x :: rest => x ++ sep ++ joinSep sep rest

/-! ## make_github_request (github_service.py lines 60-103)

The HTTP layer is modelled by the outcome the requests library delivers:
a response carrying a status code, the raw body text and the parsed JSON
body, a timeout, or another network error.  Token decryption failures are
swallowed by the source (they only drop the Authorization header), so the
credential cannot change the shape of the result, only which outcome the
environment assigns to the call. -/

inductive HttpOutcome (α : Type) where
  | response (status : Nat) (text : String) (body : α)
  | timeout
  | netError (msg : String)
deriving DecidableEq

inductive GHResult (α : Type) where
  | ok (data : α)
  | err (msg : String)
deriving DecidableEq

/-- Embedding of make_github_request: classify one HTTP outcome exactly as
the status-code ladder of the source does.  Every exception the source can
see (timeout, requests.RequestException) is caught there and mapped to an
error dictionary, so the embedding is total. -/
def makeGithubRequest {α : Type} (o : HttpOutcome α) : GHResult α :=
  match o with
  | .response status text body =>
    if status = 200 then .ok body
    else if status = 404 then .err "Repository not found"
    else if status = 401 then .err "Unauthorized - token may be invalid"
    else if status = 403 then
      if containsSub (pyLower text) "rate limit" then
        .err "Rate limited - try again later"
      else
        .err "Access forbidden - repository may be private"
    else if status = 429 then .err "Rate limited - too many requests"
    else .err ("HTTP " ++ toString status ++ ": " ++ text)
  | .timeout => .err "Request timeout"
  | .netError m => .err ("Request failed: " ++ m)

/-! ## Search-API rate limiter (github_service.py lines 17-23 and 105-123) -/

/-- The requests_per_minute capacity stored in SEARCH_RATE_LIMIT. -/
def requests_per_minute : Nat := 30

/-- The mutable fields of SEARCH_RATE_LIMIT.  Clock readings (time.time()
floats) are modelled as rationals. -/
structure RLState where
  reset_time : ℚ
  request_count : Nat
  last_request_time : ℚ
deriving DecidableEq

/-- Initial module-level state of SEARCH_RATE_LIMIT. -/
def initRLState : RLState := { reset_time := 0, request_count := 0, last_request_time := 0 }

/-- Embedding of _check_rate_limit.  The argument t is the time.time()
reading taken on entry; the result is the updated state together with the
total time slept (0 when the call proceeds immediately).  time.sleep is
modelled as exact, so the clock reading taken right after sleeping is
t + sleep_time. -/
def checkRateLimit (t : ℚ) (s : RLState) : RLState × ℚ :=
  let s1 :=
    if t - s.reset_time ≥ 60 then
      { s with request_count := 0, reset_time := t }
    else s
  if s1.request_count ≥ requests_per_minute then
    let sleep_time := 60 - (t - s1.reset_time)
    if sleep_time > 0 then
      ({ reset_time := t + sleep_time, request_count := 0 + 1, last_request_time := t },
       sleep_time)
    else
      ({ s1 with request_count := s1.request_count + 1, last_request_time := t }, 0)
  else
    ({ s1 with request_count := s1.request_count + 1, last_request_time := t }, 0)

/-- A sequence of _check_rate_limit calls at the given clock readings. -/
def runRateLimiter (ts : List ℚ) (s : RLState) : RLState :=
  ts.foldl (fun s t => (checkRateLimit t s).1) s

/-! ## Upstream payloads read by get_live_project_details

Each structure holds exactly the fields the Python code reads from the
corresponding JSON payload.  GitHub always includes these keys, so the
dict.get defaults used by the source for them never fire; nullable values
are Option. -/

/-- Fields read from one item of the commits listing (the source reads
them through commit["commit"]["message" / "author"]["name" / "date"]). -/
structure Commit where
  message : String
  author_name : String
  author_date : String
deriving DecidableEq

/-- Fields read from one item of the pulls listing. -/
structure PullRequest where
  id : Nat
  number : Nat
  title : String
  body : String
  state : String
  user_login : String
  merged_at : Option String
  merged_by : Option String
  base_ref : String
  head_ref : String
  commits : Nat
  additions : Nat
  deletions : Nat
  changed_files : Nat
deriving DecidableEq

/-- Fields read from one item of the contributors listing. -/
structure Contributor where
  login : String
  contributions : Nat
deriving DecidableEq

/-- One item of an issues listing as read by
_create_documents_from_project_data; is_pull_request models the presence
of the "pull_request" key. -/
structure Issue where
  title : String
  body : String
  state : String
  is_pull_request : Bool
deriving DecidableEq

/-- The README payload, modelled at the level of the decoded text:
decoded = none when the "content" key is missing or base64/utf-8 decoding
fails (the source catches both and keeps the empty string). -/
structure ReadmeJson where
  decoded : Option String
deriving DecidableEq

/-- Fields read from one item of the events listing.  The embedded commit
objects of a push payload are opaque to the source (only counted and
truncated), so they are modelled as opaque strings. -/
structure EventJson where
  type : String
  id : String
  actor_login : String
  created_at : String
  ref : Option String
  commits : List String
  repo_name : String
deriving DecidableEq

/-- Fields read from the repository-metadata payload. -/
structure RepoJson where
  stargazers_count : Nat
  forks_count : Nat
  watchers_count : Nat
  open_issues_count : Nat
  size : Nat
  language : Option String
  created_at : Option String
  updated_at : Option String
  pushed_at : Option String
  default_branch : String
  description : Option String
  homepage : Option String
  topics : List String
  license : Option String
  visibility : String
  archived : Bool
  disabled : Bool
  has_issues : Bool
  has_projects : Bool
  has_wiki : Bool
  has_pages : Bool
  has_downloads : Bool
  network_count : Nat
  subscribers_count : Nat
deriving DecidableEq

/-- The repository_stats mapping of a snapshot. -/
structure RepoStats where
  name : String
  description : Option String
  language : Option String
  stars : Nat
  forks : Nat
  watchers : Nat
  open_issues : Nat
  size : Nat
  created_at : Option String
  updated_at : Option String
  pushed_at : Option String
  default_branch : String
  homepage : Option String
  topics : List String
  license : Option String
  visibility : String
  archived : Bool
  disabled : Bool
  has_issues : Bool
  has_projects : Bool
  has_wiki : Bool
  has_pages : Bool
  has_downloads : Bool
  network_count : Nat
  subscribers_count : Nat
deriving DecidableEq

/-- One push summary derived from a PushEvent
(github_service.py lines 744-754). -/
structure PushInfo where
  id : String
  actor : String
  created_at : String
  ref : Option String
  commits_count : Nat
  commits : List String
  repository : String
deriving DecidableEq

/-- One merge summary derived from a merged pull request
(github_service.py lines 760-776). -/
structure MergeInfo where
  id : Nat
  number : Nat
  title : String
  user : String
  merged_at : Option String
  merged_by : Option String
  base_branch : String
  head_branch : String
  commits : Nat
  additions : Nat
  deletions : Nat
  changed_files : Nat
deriving DecidableEq

/-- The per-project data dictionary flowing through the AI service, seen
through the dict.get views the readers apply: list-valued keys are read
with default [] and the documentation key with default "", under which an
absent key and an empty value coincide (the aggregator result has no
"issues" key, the placeholder dictionaries have no "pushes"/"merges"
keys).  The repository_stats mapping is present and non-empty in every
producer. -/
structure ProjectData where
  repository_stats : RepoStats
  commits : List Commit
  pull_requests : List PullRequest
  contributors : List Contributor
  documentation : String
  pushes : List PushInfo
  merges : List MergeInfo
  issues : List Issue
deriving DecidableEq

/-- The six upstream outcomes one get_live_project_details call observes
for a given project id and credential. -/
structure FetchEnv where
  repo : HttpOutcome RepoJson
  commits : HttpOutcome (List Commit)
  prs : HttpOutcome (List PullRequest)
  contributors : HttpOutcome (List Contributor)
  readme : HttpOutcome ReadmeJson
  events : HttpOutcome (List EventJson)
deriving DecidableEq

/-! ## get_live_project_details (github_service.py lines 649-787) -/

/-- The fallback repository_stats dictionary
(github_service.py lines 671-697). -/
def defaultRepoStats (project_id : String) : RepoStats :=
  { name := project_id
    description := some "Repository information not available"
    language := some "Unknown"
    stars := 0
    forks := 0
    watchers := 0
    open_issues := 0
    size := 0
    created_at := none
    updated_at := none
    pushed_at := none
    default_branch := "main"
    homepage := none
    topics := []
    license := none
    visibility := "unknown"
    archived := false
    disabled := false
    has_issues := false
    has_projects := false
    has_wiki := false
    has_pages := false
    has_downloads := false
    network_count := 0
    subscribers_count := 0 }

/-- repo_stats.update(...) on a successful repository-metadata call
(github_service.py lines 699-726).  The update leaves "name" at the
project id; the remaining keys are overwritten from the payload. -/
def updateRepoStats (project_id : String) (r : RepoJson) : RepoStats :=
  { name := project_id
    description := r.description
    language := r.language
    stars := r.stargazers_count
    forks := r.forks_count
    watchers := r.watchers_count
    open_issues := r.open_issues_count
    size := r.size
    created_at := r.created_at
    updated_at := r.updated_at
    pushed_at := r.pushed_at
    default_branch := r.default_branch
    homepage := r.homepage
    topics := r.topics
    license := r.license
    visibility := r.visibility
    archived := r.archived
    disabled := r.disabled
    has_issues := r.has_issues
    has_projects := r.has_projects
    has_wiki := r.has_wiki
    has_pages := r.has_pages
    has_downloads := r.has_downloads
    network_count := r.network_count
    subscribers_count := r.subscribers_count }

/-- Push summary built from one PushEvent entry. -/
def mkPushInfo (e : EventJson) : PushInfo :=
  { id := e.id
    actor := e.actor_login
    created_at := e.created_at
    ref := e.ref
    commits_count := e.commits.length
    commits := e.commits.take 3
    repository := e.repo_name }

/-- Merge summary built from one merged pull request. -/
def mkMergeInfo (pr : PullRequest) : MergeInfo :=
  { id := pr.id
    number := pr.number
    title := pr.title
    user := pr.user_login
    merged_at := pr.merged_at
    merged_by := pr.merged_by
    base_branch := pr.base_ref
    head_branch := pr.head_ref
    commits := pr.commits
    additions := pr.additions
    deletions := pr.deletions
    changed_files := pr.changed_files }

/-- Embedding of get_live_project_details.  The function never raises: a
404 of any call, the repository-metadata call included, only degrades the
corresponding category to its default, and the README decode failure is
caught in place.  The top-level "project_id" key of the returned
dictionary is not read by any verified operation and is elided. -/
def getLiveProjectDetails (env : FetchEnv) (project_id : String) : ProjectData :=
  let repo_result := makeGithubRequest env.repo
  let commits_result := makeGithubRequest env.commits
  let prs_result := makeGithubRequest env.prs
  let contributors_result := makeGithubRequest env.contributors
  let readme_result := makeGithubRequest env.readme
  let events_result := makeGithubRequest env.events
  let repo_stats :=
    match repo_result with
    | .ok r => updateRepoStats project_id r
    | .err _ => defaultRepoStats project_id
  let readme_content :=
    match readme_result with
    | .ok r => r.decoded.getD ""
    | .err _ => ""
  let pushes :=
    match events_result with
    | .ok events => (events.filter (fun e => e.type == "PushEvent")).map mkPushInfo
    | .err _ => []
  let merges :=
    match prs_result with
    | .ok prs => (prs.filter (fun pr => truthyStr pr.merged_at)).map mkMergeInfo
    | .err _ => []
  { repository_stats := repo_stats
    commits := match commits_result with | .ok cs => cs | .err _ => []
    pull_requests := match prs_result with | .ok prs => prs | .err _ => []
    contributors := match contributors_result with | .ok cs => cs | .err _ => []
    documentation := readme_content
    pushes := pushes
    merges := merges
    issues := [] }

/-! ## Association-list model of the module-level Python dictionaries -/

/-- Dictionary lookup d.get(k) / k in d. -/
def alookup {β : Type} (k : String) : List (String × β) → Option β
  | [] => none
  | (k', v) :: rest => if k' = k then some v else alookup k rest

/-- Dictionary assignment d[k] = v: replace the binding in place, or
append a new one. -/
def ainsert {β : Type} (k : String) (v : β) : List (String × β) → List (String × β)
  | [] => [(k, v)]
  | (k', v') :: rest => if k' = k then (k, v) :: rest else (k', v') :: ainsert k v rest

/-! ## _get_basic_project_info (ai_service.py lines 43-124) -/

/-- The meaningful-data check of ai_service.py lines 55-60 and 68-73.
The first disjunct of the source is
details.get("repository_stats", {}).get("stars") is not None; every
producer of the details dictionary stores an int (0 by default) under
"stars", so the disjunct tests key presence, never the value, and is
constantly true. -/
def hasData (d : ProjectData) : Bool :=
  true || !d.commits.isEmpty || !d.contributors.isEmpty || !(d.documentation == "")

/-- The synthesized minimal details dictionary of ai_service.py
lines 78-94.  The source mapping carries only the eight repository_stats
keys listed there; the remaining RepoStats fields keep the values the
downstream dict.get reads would substitute for the missing keys, none of
which is read by a verified operation. -/
def placeholderProjectData (project_id : String) : ProjectData :=
  { repository_stats :=
      { defaultRepoStats project_id with
        description := some "Repository information not available due to API rate limits"
        language := some "Unknown"
        stars := 0
        forks := 0
        size := 0
        created_at := some "Unknown"
        updated_at := some "Unknown" }
    commits := []
    pull_requests := []
    contributors := []
    documentation := ""
    pushes := []
    merges := []
    issues := [] }

/-- The snapshot cache project_data_cache. -/
abbrev Cache := List (String × ProjectData)

/-- Embedding of _get_basic_project_info.  envAuth gives the upstream
outcomes of the credentialed fetch, envPub those of the public fallback
fetch.  The except branch of the source (lines 100-124) is unreachable in
the embedding because the embedded get_live_project_details is total. -/
def getBasicProjectInfo (envAuth envPub : FetchEnv) (project_id : String)
    (cache : Cache) : ProjectData × Cache :=
  match alookup project_id cache with
  | some cached => (cached, cache)
  | none =>
    let details := getLiveProjectDetails envAuth project_id
    let details1 :=
      if hasData details then details
      else getLiveProjectDetails envPub project_id
    let final :=
      if hasData details1 then details1
      else placeholderProjectData project_id
    (final, ainsert project_id final cache)

/-! ## _create_documents_from_project_data (ai_service.py lines 126-238) -/

/-- One RAG document: id, content and the metadata dictionary
{"source": ..., "type": ...}. -/
structure Document where
  id : String
  content : String
  source : String
  type : String
deriving DecidableEq

/-- Lines of the basic-info document (lines 134-148): each field is
appended only when truthy (0 and None and "" are falsy). -/
def basicInfoContent (project_id : String) (rs : RepoStats) : String :=
  let s := "Repository: " ++ project_id ++ "\n"
  let s := if truthyStr rs.description then
    s ++ "Description: " ++ pyOptStr rs.description ++ "\n" else s
  let s := if truthyStr rs.language then
    s ++ "Primary Language: " ++ pyOptStr rs.language ++ "\n" else s
  let s := if rs.stars ≠ 0 then s ++ "Stars: " ++ toString rs.stars ++ "\n" else s
  let s := if rs.forks ≠ 0 then s ++ "Forks: " ++ toString rs.forks ++ "\n" else s
  let s := if rs.size ≠ 0 then s ++ "Size: " ++ toString rs.size ++ " KB\n" else s
  let s := if truthyStr rs.created_at then
    s ++ "Created: " ++ pyOptStr rs.created_at ++ "\n" else s
  let s := if truthyStr rs.updated_at then
    s ++ "Last Updated: " ++ pyOptStr rs.updated_at ++ "\n" else s
  s

/-- Contributor lines (lines 168-170): enumerate(contributors[:10]). -/
def contributorLines : Nat → List Contributor → String
  | _, [] => ""
  | i, c :: rest =>
    toString (i + 1) ++ ". " ++ c.login ++ ": " ++ toString c.contributions ++
      " contributions\n" ++ contributorLines (i + 1) rest

/-- Commit lines (lines 181-187): enumerate(commits[:15]); entries with an
empty message are skipped but still consume their index. -/
def commitLines : Nat → List Commit → String
  | _, [] => ""
  | i, c :: rest =>
    (if !(c.message == "") then
      toString (i + 1) ++ ". " ++ pyTake c.message 100 ++ "... (by " ++
        c.author_name ++ " on " ++ c.author_date ++ ")\n"
     else "") ++ commitLines (i + 1) rest

/-- Issue lines (lines 198-206): enumerate(issues[:10]); only
non-pull-request entries with a truthy title are printed, and the body
line only when the body is truthy. -/
def issueLines : Nat → List Issue → String
  | _, [] => ""
  | i, it :: rest =>
    (if !(it.title == "") && !it.is_pull_request then
      toString (i + 1) ++ ". [" ++ pyUpper it.state ++ "] " ++ it.title ++ "\n" ++
        (if !(it.body == "") then "   " ++ pyTake it.body 200 ++ "...\n" else "")
     else "") ++ issueLines (i + 1) rest

/-- Pull-request lines (lines 217-225): enumerate(pull_requests[:10]). -/
def prLines : Nat → List PullRequest → String
  | _, [] => ""
  | i, pr :: rest =>
    (if !(pr.title == "") then
      toString (i + 1) ++ ". [" ++ pyUpper pr.state ++ "] " ++ pr.title ++ "\n" ++
        (if !(pr.body == "") then "   " ++ pyTake pr.body 200 ++ "...\n" else "")
     else "") ++ prLines (i + 1) rest

/-- Embedding of _create_documents_from_project_data.  The basic-info
document is guarded in the source by the truthiness of the
repository_stats mapping, which every producer fills in, so it is emitted
unconditionally here; the other five documents are emitted exactly when
their category list or text is non-empty. -/
def buildDocuments (project_id : String) (pd : ProjectData) : List Document :=
  [{ id := project_id ++ "_basic_info"
     content := basicInfoContent project_id pd.repository_stats
     source := "https://github.com/" ++ project_id
     type := "repository_info" }] ++
  (if !(pd.documentation == "") then
    [{ id := project_id ++ "_readme"
       content := "README Content:\n" ++ pd.documentation
       source := "https://github.com/" ++ project_id ++ "/blob/main/README.md"
       type := "documentation" }]
   else []) ++
  (if !pd.contributors.isEmpty then
    [{ id := project_id ++ "_contributors"
       content := "Contributors:\n" ++ contributorLines 0 (pd.contributors.take 10)
       source := "https://github.com/" ++ project_id ++ "/graphs/contributors"
       type := "contributors" }]
   else []) ++
  (if !pd.commits.isEmpty then
    [{ id := project_id ++ "_commits"
       content := "Recent Commits:\n" ++ commitLines 0 (pd.commits.take 15)
       source := "https://github.com/" ++ project_id ++ "/commits"
       type := "commits" }]
   else []) ++
  (if !pd.issues.isEmpty then
    [{ id := project_id ++ "_issues"
       content := "Recent Issues:\n" ++ issueLines 0 (pd.issues.take 10)
       source := "https://github.com/" ++ project_id ++ "/issues"
       type := "issues" }]
   else []) ++
  (if !pd.pull_requests.isEmpty then
    [{ id := project_id ++ "_pull_requests"
       content := "Recent Pull Requests:\n" ++ prLines 0 (pd.pull_requests.take 10)
       source := "https://github.com/" ++ project_id ++ "/pulls"
       type := "pull_requests" }]
   else [])

/-! ## Query routing and answering (ai_service.py lines 240-401) -/

/-- One entry of the sources list of an answer. -/
structure SourceRef where
  source : String
  type : String
deriving DecidableEq

/-- The {"answer": ..., "sources": [...]} dictionary. -/
structure Answer where
  answer : String
  sources : List SourceRef
deriving DecidableEq

/-- The keyword list of ai_service.py line 293 that routes a question to
the direct path. -/
def directKeywords : List String :=
  ["contributor", "who worked", "commit count", "stars", "forks", "language"]

/-- The router of query_project: a question is direct when its lower-cased
text contains any keyword. -/
def isDirectQuestion (question : String) : Bool :=
  directKeywords.any (fun k => containsSub (pyLower question) k)

/-- Embedding of _answer_direct_question (lines 352-401).  Its except
branch is unreachable here because every operation it performs is total. -/
def answerDirectQuestion (project_id : String) (question : String)
    (pd : ProjectData) : Answer :=
  let lq := pyLower question
  let rs := pd.repository_stats
  if containsSub lq "contributor" || containsSub lq "who worked" then
    if !pd.contributors.isEmpty then
      { answer := "Top contributors to " ++ project_id ++ ": " ++
          joinSep ", " ((pd.contributors.take 5).map (fun c =>
            c.login ++ " (" ++ toString c.contributions ++ " contributions)"))
        sources := [{ source := "https://github.com/" ++ project_id ++ "/graphs/contributors"
                      type := "contributors" }] }
    else
      { answer := "No contributor data available."
        sources := [{ source := "Direct GitHub API Call", type := "contributors" }] }
  else if containsSub lq "language" then
    { answer := "The primary language for " ++ project_id ++ " is " ++
        pyOptStr rs.language ++ "."
      sources := [{ source := "https://github.com/" ++ project_id, type := "repository_info" }] }
  else if containsSub lq "star" then
    { answer := project_id ++ " has " ++ toString rs.stars ++ " stars on GitHub."
      sources := [{ source := "https://github.com/" ++ project_id, type := "repository_info" }] }
  else if containsSub lq "fork" then
    { answer := project_id ++ " has " ++ toString rs.forks ++ " forks on GitHub."
      sources := [{ source := "https://github.com/" ++ project_id, type := "repository_info" }] }
  else if containsSub lq "commit" then
    { answer := project_id ++ " has " ++ toString pd.commits.length ++
        " recent commits available."
      sources := [{ source := "https://github.com/" ++ project_id ++ "/commits"
                    type := "commits" }] }
  else
    let description := rs.description
    let language := rs.language
    let stars := rs.stars
    let a := project_id ++ " is a " ++ pyOptStr language ++ " project"
    let a := if truthyStr description && !(description == some "No description available") then
      a ++ " that " ++ pyLower (pyOptStr description) else a
    let a := if stars > 0 then a ++ " with " ++ toString stars ++ " stars on GitHub" else a
    { answer := a ++ "."
      sources := [{ source := "https://github.com/" ++ project_id, type := "repository_info" }] }

/-- Outcome of one collection.query call in the RAG path: fail models any
exception raised by the vector store (caught by the source and folded into
the direct fallback); ok carries the retrieved contents and metadata
(results["documents"][0] and results["metadatas"][0]). -/
inductive RagRetrieval where
  | fail
  | ok (docs : List String) (metas : List SourceRef)
deriving DecidableEq

/-- Outcome of the generation call: fail models an exception from
model.generate_content; result t models a response whose text attribute is
t, where a falsy response object is collapsed into result "". -/
inductive GenOutcome where
  | fail
  | result (t : String)
deriving DecidableEq

/-- The process-wide backends and per-request upstream behavior of the
RAG path. -/
structure AIEnv where
  chromaOk : Bool
  indexOk : Bool
  retrieval : RagRetrieval
  geminiConfigured : Bool
  gen : GenOutcome
deriving DecidableEq

/-- The process-wide mutable state of ai_service: the snapshot cache and
the per-project collection map project_collections (a key bound to none
records an unavailable index). -/
structure SysState where
  cache : Cache
  collections : List (String × Option Unit)

/-- Embedding of _initialize_vector_store (lines 240-280): build the index
at most once per project id; record none when the vector-store client is
unavailable, when no documents were produced, or when collection creation
or population raises. -/
def initializeVectorStore (envAuth envPub : FetchEnv) (aienv : AIEnv)
    (project_id : String) (st : SysState) : SysState :=
  if (alookup project_id st.collections).isSome then st
  else if !aienv.chromaOk then
    { st with collections := ainsert project_id none st.collections }
  else
    let pc := getBasicProjectInfo envAuth envPub project_id st.cache
    let documents := buildDocuments project_id pc.1
    let cache1 := pc.2
    if documents.isEmpty then
      { cache := cache1, collections := ainsert project_id none st.collections }
    else if aienv.indexOk then
      { cache := cache1, collections := ainsert project_id (some ()) st.collections }
    else
      { cache := cache1, collections := ainsert project_id none st.collections }

/-- Embedding of query_project (lines 282-350).  Every branch of the
source returns a dictionary: RAG-path exceptions fall back to the direct
answer and the outer except is unreachable because everything it guards is
total here. -/
def queryProject (envAuth envPub : FetchEnv) (aienv : AIEnv)
    (project_id : String) (question : String) (st : SysState) : Answer × SysState :=
  let lq := pyLower question
  let pc := getBasicProjectInfo envAuth envPub project_id st.cache
  let pd := pc.1
  let st1 : SysState := { st with cache := pc.2 }
  if directKeywords.any (fun k => containsSub lq k) then
    (answerDirectQuestion project_id question pd, st1)
  else
    let st2 :=
      if (alookup project_id st1.collections).isSome then st1
      else initializeVectorStore envAuth envPub aienv project_id st1
    match (alookup project_id st2.collections).getD none with
    | none => (answerDirectQuestion project_id question pd, st2)
    | some _ =>
      match aienv.retrieval with
      | .fail => (answerDirectQuestion project_id question pd, st2)
      | .ok docs metas =>
        let context_str := joinSep "\n\n---\n\n" docs
        if !aienv.geminiConfigured then
          ({ answer := "Based on the available information about " ++ project_id ++
               ", I can see this is a project with some activity, but I need the AI service to be properly configured to provide detailed answers. Here\x27s what I know: " ++
               pyTake context_str 500 ++ "..."
             sources := metas }, st2)
        else
          match aienv.gen with
          | .fail => (answerDirectQuestion project_id question pd, st2)
          | .result t =>
            if !(t == "") then
              ({ answer := pyStrip t, sources := metas }, st2)
            else
              ({ answer := "I couldn\x27t generate a response. Please try rephrasing your question."
                 sources := [] }, st2)

/-! ## Concrete sample data used to evaluate the embedding -/

/-- An environment in which all six upstream calls time out. -/
def envAllFail : FetchEnv :=
  { repo := .timeout, commits := .timeout, prs := .timeout
    contributors := .timeout, readme := .timeout, events := .timeout }

/-- A sample repository-metadata payload with 7 stars. -/
def sampleRepoJson : RepoJson :=
  { stargazers_count := 7
    forks_count := 2
    watchers_count := 7
    open_issues_count := 1
    size := 42
    language := some "Python"
    created_at := some "2024-01-01T00:00:00Z"
    updated_at := some "2024-06-01T00:00:00Z"
    pushed_at := some "2024-06-01T00:00:00Z"
    default_branch := "main"
    description := some "A sample project"
    homepage := none
    topics := []
    license := none
    visibility := "public"
    archived := false
    disabled := false
    has_issues := true
    has_projects := false
    has_wiki := false
    has_pages := false
    has_downloads := false
    network_count := 0
    subscribers_count := 0 }

/-- A sample commit. -/
def sampleCommit : Commit :=
  { message := "initial commit", author_name := "alice", author_date := "2024-01-01" }

/-- An environment in which every upstream call succeeds with small
payloads (7 stars, one commit, no pull requests, no contributors, a
decoded README, no events). -/
def sampleEnvOk : FetchEnv :=
  { repo := .response 200 "" sampleRepoJson
    commits := .response 200 "" [sampleCommit]
    prs := .response 200 "" []
    contributors := .response 200 "" []
    readme := .response 200 "" { decoded := some "hello readme" }
    events := .response 200 "" [] }

/-- An environment whose repository-metadata call returns HTTP 404 while
the other five calls succeed (the 404 body carried by the model is never
read). -/
def env404 : FetchEnv := { sampleEnvOk with repo := .response 404 "Not Found" sampleRepoJson }

/-- A sample issue. -/
def sampleIssue : Issue :=
  { title := "crash on start", body := "it crashes", state := "open", is_pull_request := false }

/-- A RAG environment in which every backend works and the generation
call succeeds with a whitespace-only response text. -/
def aiEnvWhitespaceGen : AIEnv :=
  { chromaOk := true, indexOk := true, retrieval := .ok ["ctx"] []
    geminiConfigured := true, gen := .result " " }

/-- The initial process-wide state: empty snapshot cache, empty
collection map. -/
def emptySysState : SysState := { cache := [], collections := [] }

/-! ## String helper lemmas -/

lemma str_data_append (a b : String) : (a ++ b).data = a.data ++ b.data := by
  cases a; cases b; rfl

lemma str_eq_empty_iff (s : String) : s = "" ↔ s.data = [] := by
  constructor
  · intro h; rw [h]
  · intro h; cases s; exact congrArg String.mk h

lemma append_ne_empty_left (a b : String) (h : a ≠ "") : a ++ b ≠ "" := by
  intro e
  rw [str_eq_empty_iff, str_data_append, List.append_eq_nil] at e
  exact h ((str_eq_empty_iff a).mpr e.1)

lemma append_ne_empty_right (a b : String) (h : b ≠ "") : a ++ b ≠ "" := by
  intro e
  rw [str_eq_empty_iff, str_data_append, List.append_eq_nil] at e
  exact h ((str_eq_empty_iff b).mpr e.2)

lemma makeGithubRequest_ok_iff {α : Type} (o : HttpOutcome α) :
    (∃ d, makeGithubRequest o = GHResult.ok d) ↔
      ∃ text body, o = HttpOutcome.response 200 text body := by
  cases o with
  | response status text body =>
    constructor
    · rintro ⟨d, hd⟩
      simp only [makeGithubRequest] at hd
      split_ifs at hd with h200 h404 h401 h403 hrl h429
      · exact ⟨text, body, by rw [h200]⟩
    · rintro ⟨t, b, hb⟩
      injection hb with hs ht hb2
      exact ⟨body, by simp [makeGithubRequest, hs]⟩
  | timeout =>
    constructor
    · rintro ⟨d, hd⟩; cases hd
    · rintro ⟨t, b, hb⟩; cases hb
  | netError m =>
    constructor
    · rintro ⟨d, hd⟩; cases hd
    · rintro ⟨t, b, hb⟩; cases hb

lemma makeGithubRequest_err_ne_empty {α : Type} (o : HttpOutcome α) (msg : String)
    (h : makeGithubRequest o = GHResult.err msg) : msg ≠ "" := by
  cases o with
  | response status text body =>
    simp only [makeGithubRequest] at h
    split_ifs at h with h200 h404 h401 h403 hrl h429
    all_goals first
      | decide
      | ((cases h) <;> decide)
      | exact append_ne_empty_left _ _ (append_ne_empty_left _ _
          (append_ne_empty_left _ _ (by decide)))
      | ((cases h) <;> exact append_ne_empty_left _ _ (append_ne_empty_left _ _
          (append_ne_empty_left _ _ (by decide))))
  | timeout =>
    first
      | decide
      | ((cases h) <;> decide)
  | netError m =>
    first
      | exact append_ne_empty_left _ _ (by decide)
      | ((cases h) <;> exact append_ne_empty_left _ _ (by decide))

/-- C10: make_github_request, the single upstream HTTP helper, is total
(the embedding is a total function because the source catches every
exception the HTTP layer can raise); for every URL and optional
credential it returns success with the parsed body exactly when the HTTP
status is 200, and an error dictionary with a non-empty error string for
every other status and for timeout or network errors. -/
theorem c10_make_github_request_total {α : Type}
    (env : String → Option String → HttpOutcome α) (url : String)
    (cred : Option String) :
    ((∃ d, makeGithubRequest (env url cred) = GHResult.ok d) ↔
      ∃ text body, env url cred = HttpOutcome.response 200 text body) ∧
    (∀ msg, makeGithubRequest (env url cred) = GHResult.err msg → msg ≠ "") :=
  ⟨makeGithubRequest_ok_iff (env url cred),
   fun msg h => makeGithubRequest_err_ne_empty (env url cred) msg h⟩

/-- Witness for C10 at a concrete environment: a timed-out request yields
the non-empty error message "Request timeout". -/
theorem c10_make_github_request_total_witness : ("Request timeout" : String) ≠ "" :=
  (c10_make_github_request_total (fun _ _ => HttpOutcome.timeout (α := Unit))
    "https://api.github.com/repos/o/r" none).2 "Request timeout" rfl

/-! ## Rate-limiter lemmas (claim C6) -/

lemma checkRateLimit_count_le (t : ℚ) (s : RLState)
    (h : s.request_count ≤ requests_per_minute) :
    (checkRateLimit t s).1.request_count ≤ requests_per_minute := by
  simp only [checkRateLimit, requests_per_minute] at *
  split_ifs <;> simp_all <;> omega

lemma runRateLimiter_count_le (ts : List ℚ) (s : RLState)
    (h : s.request_count ≤ requests_per_minute) :
    (runRateLimiter ts s).request_count ≤ requests_per_minute := by
  induction ts generalizing s with
  | nil => exact h
  | cons t ts ih =>
    exact ih (checkRateLimit t s).1 (checkRateLimit_count_le t s h)

lemma checkRateLimit_at_capacity (t : ℚ) (s : RLState)
    (hmono : s.reset_time ≤ t) (hwin : t - s.reset_time < 60)
    (hcap : s.request_count = requests_per_minute) :
    (checkRateLimit t s).2 = 60 - (t - s.reset_time) ∧
    0 < (checkRateLimit t s).2 ∧
    t + (checkRateLimit t s).2 = s.reset_time + 60 ∧
    (checkRateLimit t s).1.request_count = 1 ∧
    (checkRateLimit t s).1.reset_time = t + (60 - (t - s.reset_time)) := by
  have hn : ¬ (t - s.reset_time ≥ 60) := by linarith
  have hge : s.request_count ≥ requests_per_minute := le_of_eq hcap.symm
  have hpos : (0:ℚ) < 60 - (t - s.reset_time) := by linarith
  simp only [checkRateLimit, hn, if_false, if_neg hn]
  rw [if_pos hge, if_pos hpos]
  refine ⟨rfl, hpos, by ring, rfl, rfl⟩

/-- C6: for the rate limiter with capacity 30 and a fixed 60-second
window, the request counter never exceeds 30 across any sequence of calls
that starts at or below capacity (the initial counter is 0); and a call
arriving at full capacity strictly inside the current window — the 31st
call of that window — is put to sleep for exactly the remainder of the
window, so it resumes at the moment the window has elapsed, with the
counter reset to 0 and then consumed by the admitted call (final value 1)
and a fresh window starting at the wake-up time. -/
theorem c6_rate_limiter_window :
    (∀ ts s, s.request_count ≤ requests_per_minute →
      (runRateLimiter ts s).request_count ≤ requests_per_minute) ∧
    (∀ t s, s.reset_time ≤ t → t - s.reset_time < 60 →
      s.request_count = requests_per_minute →
      (checkRateLimit t s).2 = 60 - (t - s.reset_time) ∧
      0 < (checkRateLimit t s).2 ∧
      t + (checkRateLimit t s).2 = s.reset_time + 60 ∧
      (checkRateLimit t s).1.request_count = 1 ∧
      (checkRateLimit t s).1.reset_time = t + (60 - (t - s.reset_time))) :=
  ⟨runRateLimiter_count_le,
   fun t s hmono hwin hcap => checkRateLimit_at_capacity t s hmono hwin hcap⟩

/-- Witness for C6 at concrete inputs: three calls at times 0, 1, 2 from
the initial state stay at or below capacity, and a 31st call at time 10
into a window that started at time 0 sleeps exactly 50 seconds, resumes
at time 60, and leaves the counter at 1. -/
theorem c6_rate_limiter_window_witness :
    (runRateLimiter [0, 1, 2] initRLState).request_count ≤ requests_per_minute ∧
    ((checkRateLimit 10 { reset_time := 0, request_count := 30, last_request_time := 5 }).2 =
      60 - ((10:ℚ) - 0) ∧
     0 < (checkRateLimit 10 { reset_time := 0, request_count := 30, last_request_time := 5 }).2 ∧
     (10:ℚ) + (checkRateLimit 10 { reset_time := 0, request_count := 30, last_request_time := 5 }).2 =
       0 + 60 ∧
     (checkRateLimit 10 { reset_time := 0, request_count := 30, last_request_time := 5 }).1.request_count = 1 ∧
     (checkRateLimit 10 { reset_time := 0, request_count := 30, last_request_time := 5 }).1.reset_time =
       10 + (60 - ((10:ℚ) - 0))) :=
  ⟨c6_rate_limiter_window.1 [0, 1, 2] initRLState (by decide),
   c6_rate_limiter_window.2 10 { reset_time := 0, request_count := 30, last_request_time := 5 }
     (by decide) (by simp only [sub_zero]; decide) (by decide)⟩

/-! ## Cache lemmas (claim C5) -/

lemma mem_keys_ainsert {β : Type} (k x : String) (v : β) (c : List (String × β))
    (h : x ∈ (ainsert k v c).map Prod.fst) : x = k ∨ x ∈ c.map Prod.fst := by
  induction c with
  | nil => simpa [ainsert] using h
  | cons p rest ih =>
    obtain ⟨k', v'⟩ := p
    by_cases hk : k' = k
    · simp only [ainsert, if_pos hk] at h
      rcases List.mem_map.mp h with ⟨q, hq, hx⟩
      rcases List.mem_cons.mp hq with h1 | h2
      · left; rw [← hx, h1]
      · right; subst hk; exact List.mem_map.mpr ⟨q, List.mem_cons_of_mem _ h2, hx⟩
    · simp only [ainsert, if_neg hk] at h
      rcases List.mem_map.mp h with ⟨q, hq, hx⟩
      rcases List.mem_cons.mp hq with h1 | h2
      · right; subst hx; rw [h1]; simp
      · rcases ih (List.mem_map.mpr ⟨q, h2, hx⟩) with h3 | h4
        · left; exact h3
        · right; simp [h4]

lemma keys_nodup_ainsert {β : Type} (k : String) (v : β) (c : List (String × β))
    (h : (c.map Prod.fst).Nodup) : ((ainsert k v c).map Prod.fst).Nodup := by
  induction c with
  | nil => simp [ainsert]
  | cons p rest ih =>
    obtain ⟨k', v'⟩ := p
    simp only [List.map_cons, List.nodup_cons] at h
    by_cases hk : k' = k
    · simp only [ainsert, if_pos hk, List.map_cons, List.nodup_cons]
      exact ⟨by rw [← hk]; exact h.1, h.2⟩
    · simp only [ainsert, if_neg hk, List.map_cons, List.nodup_cons]
      refine ⟨fun hmem => ?_, ih h.2⟩
      rcases mem_keys_ainsert k k' v rest hmem with h1 | h2
      · exact hk h1
      · exact h.1 h2

/-- C5: the snapshot cache holds at most one entry per project id (its
key list stays duplicate-free under every request), and it is keyed by
project id only: for a project id already present in the cache, a
snapshot request returns the cached entry and leaves the cache unchanged
for every credentialed and public upstream environment, i.e. regardless
of current upstream state and without refetching. -/
theorem c5_cache_single_entry_and_reuse :
    (∀ envAuth envPub project_id cache d,
      alookup project_id cache = some d →
      getBasicProjectInfo envAuth envPub project_id cache = (d, cache)) ∧
    (∀ envAuth envPub project_id (cache : Cache),
      (cache.map Prod.fst).Nodup →
      ((getBasicProjectInfo envAuth envPub project_id cache).2.map Prod.fst).Nodup) := by
  constructor
  · intro envAuth envPub project_id cache d h
    simp [getBasicProjectInfo, h]
  · intro envAuth envPub project_id cache h
    unfold getBasicProjectInfo
    cases hl : alookup project_id cache with
    | some cached => exact h
    | none => exact keys_nodup_ainsert project_id _ cache h

/-- Witness for C5 at concrete inputs: with the id o/r bound to the
placeholder snapshot in the cache, a request under the all-failing
environment returns the cached entry unchanged, and the key list of the
resulting cache is duplicate-free. -/
theorem c5_cache_single_entry_and_reuse_witness :
    getBasicProjectInfo envAllFail envAllFail "o/r"
      [("o/r", placeholderProjectData "o/r")] =
      (placeholderProjectData "o/r", [("o/r", placeholderProjectData "o/r")]) ∧
    ((getBasicProjectInfo envAllFail envAllFail "o/r"
      [("o/r", placeholderProjectData "o/r")]).2.map Prod.fst).Nodup :=
  ⟨c5_cache_single_entry_and_reuse.1 envAllFail envAllFail "o/r"
      [("o/r", placeholderProjectData "o/r")] (placeholderProjectData "o/r") (by decide),
   c5_cache_single_entry_and_reuse.2 envAllFail envAllFail "o/r"
      [("o/r", placeholderProjectData "o/r")] (by decide)⟩

/-! ## Claim C4: the no-meaningful-data fallback chain is dead code -/

/-- C4 (code evaluated at the failing input): the meaningful-data check
of _get_basic_project_info is constantly true, because its first disjunct
tests that the "stars" key of repository_stats is not None while every
producer stores an int (0 by default) there.  Consequently, for a project
id with empty cache whose credentialed fetch fails on all six upstream
calls — no stars data, no commits, no contributors, no README — the
function returns and caches the degraded credentialed snapshot: the
public refetch is never attempted (the result does not depend on the
public environment) and the synthesized placeholder is never produced. -/
theorem c4_meaningful_data_fallback_never_fires (envPub : FetchEnv) :
    (∀ pd : ProjectData, hasData pd = true) ∧
    getBasicProjectInfo envAllFail envPub "o/r" [] =
      (getLiveProjectDetails envAllFail "o/r",
       [("o/r", getLiveProjectDetails envAllFail "o/r")]) ∧
    (getLiveProjectDetails envAllFail "o/r").repository_stats.stars = 0 ∧
    (getLiveProjectDetails envAllFail "o/r").commits = [] ∧
    (getLiveProjectDetails envAllFail "o/r").contributors = [] ∧
    (getLiveProjectDetails envAllFail "o/r").documentation = "" ∧
    getLiveProjectDetails envAllFail "o/r" ≠ placeholderProjectData "o/r" :=
  ⟨fun _ => rfl, rfl, by decide, by decide, by decide, by decide, by decide⟩

/-! ## Claim C1: a 404 on repository metadata does not raise -/

/-- C1 counterexample: with no cache entry and the repository-metadata
call answering HTTP 404, snapshot retrieval does not raise NotFound; the
embedded get_live_project_details (total exactly because the source never
raises here) returns a snapshot whose repository statistics are the
placeholder defaults while the other categories are still populated from
their own calls. -/
theorem c1_counterexample_404_returns_snapshot :
    makeGithubRequest env404.repo = GHResult.err "Repository not found" ∧
    getLiveProjectDetails env404 "o/r" =
      { repository_stats := defaultRepoStats "o/r"
        commits := [sampleCommit]
        pull_requests := []
        contributors := []
        documentation := "hello readme"
        pushes := []
        merges := []
        issues := [] } := by
  constructor
  · decide
  · decide

/-- C1 amended: for every project id whose repository-metadata call
returns HTTP 404, snapshot retrieval does not raise: the 404 is absorbed
like any other failed call and the returned snapshot carries the default
repository statistics. -/
theorem c1_404_degrades_to_default_stats (env : FetchEnv) (project_id text : String)
    (body : RepoJson) (h : env.repo = HttpOutcome.response 404 text body) :
    (getLiveProjectDetails env project_id).repository_stats = defaultRepoStats project_id := by
  simp [getLiveProjectDetails, h, makeGithubRequest]

/-- Witness for the amended C1 at the concrete 404 environment. -/
theorem c1_404_degrades_to_default_stats_witness :
    (getLiveProjectDetails env404 "o/r").repository_stats = defaultRepoStats "o/r" :=
  c1_404_degrades_to_default_stats env404 "o/r" "Not Found" sampleRepoJson rfl

/-! ## Direct-path and query lemmas (claims C2, C3) -/

lemma answerDirectQuestion_answer_ne_empty (project_id question : String)
    (pd : ProjectData) : (answerDirectQuestion project_id question pd).answer ≠ "" := by
  unfold answerDirectQuestion
  dsimp only
  split_ifs <;> dsimp only <;>
    first
      | decide
      | exact append_ne_empty_right _ _ (by decide)
      | exact append_ne_empty_left _ _ (append_ne_empty_right _ _ (by decide))

/-- C3: for a project id whose entry in the per-project collection map is
recorded as unavailable (bound to none), query_project does not raise and
returns exactly the answer the direct path produces for that project id,
question, and the snapshot obtained from the aggregation step (cached or
freshly aggregated). -/
theorem c3_null_index_equals_direct_path (envAuth envPub : FetchEnv) (aienv : AIEnv)
    (project_id question : String) (st : SysState)
    (h : alookup project_id st.collections = some none) :
    (queryProject envAuth envPub aienv project_id question st).1 =
      answerDirectQuestion project_id question
        (getBasicProjectInfo envAuth envPub project_id st.cache).1 := by
  unfold queryProject
  by_cases hkw : (directKeywords.any fun k => containsSub (pyLower question) k) = true
  · simp only [hkw, if_true]
  · simp only [Bool.not_eq_true] at hkw
    simp only [hkw, Bool.false_eq_true, if_false, h, Option.isSome_some, if_true,
      Option.getD_some]

/-- Witness for C3 at concrete inputs: with the index recorded
unavailable for o/r, the query answer coincides with the direct answer. -/
theorem c3_null_index_equals_direct_path_witness :
    (queryProject sampleEnvOk sampleEnvOk aiEnvWhitespaceGen "o/r" "what is this"
      { cache := [], collections := [("o/r", none)] }).1 =
      answerDirectQuestion "o/r" "what is this"
        (getBasicProjectInfo sampleEnvOk sampleEnvOk "o/r" []).1 :=
  c3_null_index_equals_direct_path sampleEnvOk sampleEnvOk aiEnvWhitespaceGen
    "o/r" "what is this" { cache := [], collections := [("o/r", none)] } (by decide)

/-- C2 counterexample: with every upstream healthy and the generation
backend succeeding with the whitespace-only response text " ", the
returned answer is response.text.strip(), the empty string.  The claim
that the answer field is always a non-empty string is therefore false as
stated. -/
theorem c2_counterexample_whitespace_generation :
    (queryProject sampleEnvOk sampleEnvOk aiEnvWhitespaceGen "o/r" "tell me about it"
      emptySysState).1.answer = "" := by decide

/-- C2 amended: for every project id, question and state, and under every
combination of upstream failures (repository metadata, commits, pull
requests, contributors, README, events, index backend, generation
backend), query_project does not raise (the embedding is total exactly
because the source catches every failure on this path) and returns an
answer that is non-empty — provided that when the generation backend
succeeds with a truthy response text, that text does not consist solely
of whitespace; a whitespace-only successful generation is the single case
(exhibited by the counterexample) in which the empty string is returned. -/
theorem c2_answer_nonempty (envAuth envPub : FetchEnv) (aienv : AIEnv)
    (project_id question : String) (st : SysState)
    (hgen : ∀ t, aienv.gen = GenOutcome.result t → t ≠ "" → pyStrip t ≠ "") :
    (queryProject envAuth envPub aienv project_id question st).1.answer ≠ "" := by
  unfold queryProject
  by_cases hkw : (directKeywords.any fun k => containsSub (pyLower question) k) = true
  · simp only [hkw, if_true]
    exact answerDirectQuestion_answer_ne_empty _ _ _
  · simp only [Bool.not_eq_true] at hkw
    simp only [hkw, Bool.false_eq_true, if_false]
    cases h2 : (alookup project_id
        (if (alookup project_id st.collections).isSome then
          { st with cache := (getBasicProjectInfo envAuth envPub project_id st.cache).2 }
         else initializeVectorStore envAuth envPub aienv project_id
          { st with cache := (getBasicProjectInfo envAuth envPub project_id st.cache).2 }).collections).getD
        none with
    | none =>
      simp only [h2]
      exact answerDirectQuestion_answer_ne_empty _ _ _
    | some u =>
      simp only [h2]
      cases hr : aienv.retrieval with
      | fail =>
        exact answerDirectQuestion_answer_ne_empty _ _ _
      | ok docs metas =>
        cases hgc : aienv.geminiConfigured with
        | false =>
          simp only [Bool.not_false, if_true]
          exact append_ne_empty_right _ _ (by decide)
        | true =>
          simp only [Bool.not_true, Bool.false_eq_true, if_false]
          cases hgo : aienv.gen with
          | fail => exact answerDirectQuestion_answer_ne_empty _ _ _
          | result t =>
            by_cases ht : (t == "") = true
            · simp only [ht, Bool.not_true, Bool.false_eq_true, if_false]
              decide
            · simp only [Bool.not_eq_true] at ht
              simp only [ht, Bool.not_false, if_true]
              exact hgen t hgo (by simpa using ht)

/-- Witness for the amended C2 at concrete inputs: under the all-failing
upstream environment and a failing generation backend, the answer for a
keyword-free question is non-empty. -/
theorem c2_answer_nonempty_witness :
    (queryProject envAllFail envAllFail
      { chromaOk := false, indexOk := false, retrieval := .fail,
        geminiConfigured := false, gen := .fail }
      "o/r" "tell me about it" emptySysState).1.answer ≠ "" :=
  c2_answer_nonempty envAllFail envAllFail
    { chromaOk := false, indexOk := false, retrieval := .fail,
      geminiConfigured := false, gen := .fail }
    "o/r" "tell me about it" emptySysState
    (fun t hgen _ => by cases hgen)

/-! ## Router and star-count lemmas (claim C7) -/

lemma containsSub_of_infix (s p q : String) (hpq : p.data <:+: q.data)
    (h : containsSub s q = true) : containsSub s p = true :=
  decide_eq_true (List.IsInfix.trans hpq (of_decide_eq_true h))

lemma containsSub_middle (a b c : String) : containsSub (a ++ b ++ c) b = true := by
  apply decide_eq_true
  exact ⟨a.data, c.data, by simp [str_data_append, List.append_assoc]⟩

lemma isDirectQuestion_of_stars (question : String)
    (h : containsSub (pyLower question) "stars" = true) :
    isDirectQuestion question = true := by
  unfold isDirectQuestion
  exact List.any_eq_true.mpr ⟨"stars", by simp [directKeywords], h⟩

/-- C7 counterexample: the question "How many stars does the top
contributor have" contains the substring "stars" and is routed to the
direct path, but because the contributor keyword is matched first inside
the direct answerer, the returned answer is the contributor template,
which does not contain the star count (7) stored in the snapshot. -/
theorem c7_counterexample_contributor_shadows_stars :
    isDirectQuestion "How many stars does the top contributor have" = true ∧
    containsSub (pyLower "How many stars does the top contributor have") "stars" = true ∧
    (getBasicProjectInfo sampleEnvOk sampleEnvOk "o/r" []).1.repository_stats.stars = 7 ∧
    (queryProject sampleEnvOk sampleEnvOk aiEnvWhitespaceGen "o/r"
      "How many stars does the top contributor have" emptySysState).1.answer =
      "No contributor data available." ∧
    containsSub
      (queryProject sampleEnvOk sampleEnvOk aiEnvWhitespaceGen "o/r"
        "How many stars does the top contributor have" emptySysState).1.answer "7" = false := by
  refine ⟨by decide, by decide, by decide, by decide, by decide⟩

/-- C7 amended: every question containing "stars" (case-insensitively) is
routed to the direct path; and when the question contains none of the
keywords matched earlier inside the direct answerer ("contributor",
"who worked", "language"), the returned answer contains the exact numeric
star count stored in the snapshot used for the answer. -/
theorem c7_stars_question_direct_with_count (envAuth envPub : FetchEnv) (aienv : AIEnv)
    (project_id question : String) (st : SysState)
    (hstars : containsSub (pyLower question) "stars" = true)
    (hc : containsSub (pyLower question) "contributor" = false)
    (hw : containsSub (pyLower question) "who worked" = false)
    (hl : containsSub (pyLower question) "language" = false) :
    isDirectQuestion question = true ∧
    containsSub (queryProject envAuth envPub aienv project_id question st).1.answer
      (toString (getBasicProjectInfo envAuth envPub project_id st.cache).1.repository_stats.stars) =
      true := by
  have hany : (directKeywords.any fun k => containsSub (pyLower question) k) = true :=
    List.any_eq_true.mpr ⟨"stars", by simp [directKeywords], hstars⟩
  have hstar : containsSub (pyLower question) "star" = true :=
    containsSub_of_infix _ "star" "stars" (by decide) hstars
  refine ⟨isDirectQuestion_of_stars question hstars, ?_⟩
  unfold queryProject
  simp only [hany, if_true]
  unfold answerDirectQuestion
  simp only [hc, hw, Bool.or_self, Bool.false_eq_true, if_false, hl, hstar, if_true]
  exact containsSub_middle (project_id ++ " has ") _ " stars on GitHub."

/-- Witness for the amended C7 at concrete inputs: the question
"how many stars" is routed direct and the answer contains the star
count 7. -/
theorem c7_stars_question_direct_with_count_witness :
    isDirectQuestion "how many stars" = true ∧
    containsSub
      (queryProject sampleEnvOk sampleEnvOk aiEnvWhitespaceGen "o/r" "how many stars"
        emptySysState).1.answer
      (toString (getBasicProjectInfo sampleEnvOk sampleEnvOk "o/r" []).1.repository_stats.stars) =
      true :=
  c7_stars_question_direct_with_count sampleEnvOk sampleEnvOk aiEnvWhitespaceGen
    "o/r" "how many stars" emptySysState (by decide) (by decide) (by decide) (by decide)

/-! ## Issues-document lemmas (claim C8) -/

lemma filter_issues_length (project_id : String) (pd : ProjectData)
    (h : pd.issues ≠ []) :
    ((buildDocuments project_id pd).filter (fun d => d.type == "issues")).length = 1 := by
  have hne : pd.issues.isEmpty = false := by
    simp [List.isEmpty_iff, h]
  simp only [buildDocuments, List.filter_append]
  split_ifs <;>
    simp_all [List.filter_cons, List.filter_nil, hne]

lemma filter_issues_take_ten (project_id : String) (pd : ProjectData) :
    (buildDocuments project_id { pd with issues := pd.issues.take 10 }).filter
        (fun d => d.type == "issues") =
      (buildDocuments project_id pd).filter (fun d => d.type == "issues") := by
  simp only [buildDocuments, List.filter_append]
  have htk : (pd.issues.take 10).isEmpty = pd.issues.isEmpty := by
    cases pd.issues <;> simp
  split_ifs <;>
    simp_all [List.filter_cons, List.filter_nil, List.take_take, htk]

lemma aggregator_issues_empty (env : FetchEnv) (project_id : String) :
    (getLiveProjectDetails env project_id).issues = [] := rfl

lemma aggregator_no_issues_document (env : FetchEnv) (project_id : String) :
    (buildDocuments project_id (getLiveProjectDetails env project_id)).filter
      (fun d => d.type == "issues") = [] := by
  simp only [buildDocuments, List.filter_append, aggregator_issues_empty]
  split_ifs <;>
    simp_all [List.filter_cons, List.filter_nil]

/-- C8 counterexample: the aggregator snapshot has no issues data (the
returned dictionary carries no issues key, so the builder reads the empty
default), hence the documents built from an aggregator snapshot contain
no issues document even when every upstream call succeeds. -/
theorem c8_counterexample_aggregator_feeds_no_issues :
    (getLiveProjectDetails sampleEnvOk "o/r").issues = [] ∧
    (buildDocuments "o/r" (getLiveProjectDetails sampleEnvOk "o/r")).filter
      (fun d => d.type == "issues") = [] := ⟨rfl, by decide⟩

/-- C8 amended: for every project-data mapping whose issues list is
non-empty, the builder produces exactly one issues document, and that
document is determined by the first 10 issue items (replacing the issues
list by its first 10 items leaves the issues document unchanged; inside,
each non-pull-request item with a truthy title contributes its state and
title, plus its body truncated to 200 characters when truthy); however,
the snapshots produced by the aggregator contain no issues data, so a
build from an aggregator snapshot never contains an issues document. -/
theorem c8_issues_document_corrected (project_id : String) (pd : ProjectData) :
    (pd.issues ≠ [] →
      ((buildDocuments project_id pd).filter (fun d => d.type == "issues")).length = 1 ∧
      (buildDocuments project_id { pd with issues := pd.issues.take 10 }).filter
          (fun d => d.type == "issues") =
        (buildDocuments project_id pd).filter (fun d => d.type == "issues")) ∧
    ∀ env : FetchEnv,
      (getLiveProjectDetails env project_id).issues = [] ∧
      (buildDocuments project_id (getLiveProjectDetails env project_id)).filter
        (fun d => d.type == "issues") = [] :=
  ⟨fun h => ⟨filter_issues_length project_id pd h, filter_issues_take_ten project_id pd⟩,
   fun env => ⟨aggregator_issues_empty env project_id,
     aggregator_no_issues_document env project_id⟩⟩

/-- Witness for the amended C8 at a concrete mapping holding one issue:
exactly one issues document is produced. -/
theorem c8_issues_document_corrected_witness :
    ((buildDocuments "o/r" { placeholderProjectData "o/r" with issues := [sampleIssue] }).filter
      (fun d => d.type == "issues")).length = 1 :=
  ((c8_issues_document_corrected "o/r"
    { placeholderProjectData "o/r" with issues := [sampleIssue] }).1 (by decide)).1

/-! ## Builder determinism lemmas (claim C9) -/

lemma str_data_inj (a b : String) (h : a.data = b.data) : a = b := by
  cases a; cases b; exact congrArg String.mk h

lemma str_append_left_cancel (p a b : String) (h : p ++ a = p ++ b) : a = b := by
  apply str_data_inj
  have h2 := congrArg String.data h
  rw [str_data_append, str_data_append] at h2
  exact List.append_cancel_left h2

lemma opt_singleton_sublist {α : Type} (c : Prop) [Decidable c] (x : α) :
    List.Sublist (if c then [x] else []) [x] := by
  split_ifs
  · exact List.Sublist.refl _
  · exact List.nil_sublist _

lemma buildDocuments_candidate_ids_nodup (project_id : String) :
    ([project_id ++ "_basic_info", project_id ++ "_readme", project_id ++ "_contributors",
      project_id ++ "_commits", project_id ++ "_issues",
      project_id ++ "_pull_requests"] : List String).Nodup := by
  have ne : ∀ a b : String, a ≠ b → project_id ++ a ≠ project_id ++ b :=
    fun a b hab h => hab (str_append_left_cancel project_id a b h)
  simp only [List.nodup_cons, List.mem_cons, List.mem_singleton, List.not_mem_nil,
    or_false, not_or, List.nodup_nil, and_true]
  exact ⟨⟨ne _ _ (by decide), ne _ _ (by decide), ne _ _ (by decide), ne _ _ (by decide),
      ne _ _ (by decide)⟩,
    ⟨ne _ _ (by decide), ne _ _ (by decide), ne _ _ (by decide), ne _ _ (by decide)⟩,
    ⟨ne _ _ (by decide), ne _ _ (by decide), ne _ _ (by decide)⟩,
    ⟨ne _ _ (by decide), ne _ _ (by decide)⟩,
    ⟨ne _ _ (by decide), not_false⟩⟩

lemma buildDocuments_ids_sublist (project_id : String) (pd : ProjectData) :
    List.Sublist ((buildDocuments project_id pd).map Document.id)
      [project_id ++ "_basic_info", project_id ++ "_readme", project_id ++ "_contributors",
       project_id ++ "_commits", project_id ++ "_issues", project_id ++ "_pull_requests"] := by
  simp only [buildDocuments, List.map_append, apply_ite (List.map Document.id),
    List.map_cons, List.map_nil]
  exact List.Sublist.append (List.Sublist.append (List.Sublist.append
    (List.Sublist.append (List.Sublist.append (List.Sublist.refl _)
      (opt_singleton_sublist _ _)) (opt_singleton_sublist _ _))
      (opt_singleton_sublist _ _)) (opt_singleton_sublist _ _)) (opt_singleton_sublist _ _)

lemma buildDocuments_ids_nodup (project_id : String) (pd : ProjectData) :
    ((buildDocuments project_id pd).map Document.id).Nodup :=
  (buildDocuments_candidate_ids_nodup project_id).sublist
    (buildDocuments_ids_sublist project_id pd)

/-- C9: the document builder is a deterministic function of the project
id and the snapshot: two invocations on an identical snapshot produce
identical document-id lists, contents and metadata (the embedding is a
pure function of its two arguments, with no other inputs), and the id
list is duplicate-free, so equal lists mean equal sets of ids. -/
theorem c9_build_documents_deterministic (project_id : String) (s1 s2 : ProjectData)
    (h : s1 = s2) :
    (buildDocuments project_id s1).map Document.id =
      (buildDocuments project_id s2).map Document.id ∧
    (buildDocuments project_id s1).map Document.content =
      (buildDocuments project_id s2).map Document.content ∧
    buildDocuments project_id s1 = buildDocuments project_id s2 ∧
    ((buildDocuments project_id s1).map Document.id).Nodup := by
  subst h
  exact ⟨rfl, rfl, rfl, buildDocuments_ids_nodup project_id s1⟩

/-- Witness for C9 at a concrete snapshot. -/
theorem c9_build_documents_deterministic_witness :
    (buildDocuments "o/r" (placeholderProjectData "o/r")).map Document.id =
      (buildDocuments "o/r" (placeholderProjectData "o/r")).map Document.id ∧
    (buildDocuments "o/r" (placeholderProjectData "o/r")).map Document.content =
      (buildDocuments "o/r" (placeholderProjectData "o/r")).map Document.content ∧
    buildDocuments "o/r" (placeholderProjectData "o/r") =
      buildDocuments "o/r" (placeholderProjectData "o/r") ∧
    ((buildDocuments "o/r" (placeholderProjectData "o/r")).map Document.id).Nodup :=
  c9_build_documents_deterministic "o/r" (placeholderProjectData "o/r")
    (placeholderProjectData "o/r") rfl
